import Mathlib

/-!
Verification of the demostreamlit dashboard data pipeline
(src/data.py normalization and src/app.py prepare_data aggregation).

Modelling conventions:
* pandas float cells are modelled exactly: a rational value, NaN, or a
  signed infinity (the PVal type).  Division follows IEEE conventions for
  zero denominators; there is no floating rounding in the model.
* A raw spreadsheet cell is classified by whether pd.to_numeric can parse
  it (Cell), and a date-like cell by whether pd.to_datetime(format mixed)
  can parse it (DateCell).  The parser internals are external libraries;
  only their success-or-NaT outcome is modelled.
* A YearMonth label produced by strftime of a parsed date is in bijection
  with its (year, month) pair, and the code only ever parses such labels
  back with the inverse format; labels are therefore modelled by the pair
  itself.  Rows whose date failed to parse carry a null (none) label.
* Raised Python exceptions are modelled with Except PyErr.
-/

/-- A year-month label, modelled by its (year, month) pair. -/
abbrev YM := Nat × Nat

/-- Chronological comparison of year-month labels (the order induced by
parsing the label back to a date, as pandas to_datetime does). -/
def ymLE (a b : YM) : Bool :=
  (a.1 < b.1) || (a.1 == b.1 && a.2 ≤ b.2)

/-- Strictly-later comparison of year-month labels. -/
def ymLT (a b : YM) : Bool :=
  (a.1 < b.1) || (a.1 == b.1 && a.2 < b.2)

/-- A parsed calendar date (the payload of a successful to_datetime). -/
structure Date where
  year : Nat
  month : Nat
  day : Nat
deriving DecidableEq, Repr

/-- The strftime derivation of the year-month label from a parsed date. -/
def ymOf (d : Date) : YM := (d.year, d.month)

/-- Month abbreviation used by the strftime format. -/
def monthAbbrev (m : Nat) : String :=
  match m with
  | 1 => "Jan" | 2 => "Feb" | 3 => "Mar" | 4 => "Apr"
  | 5 => "May" | 6 => "Jun" | 7 => "Jul" | 8 => "Aug"
  | 9 => "Sep" | 10 => "Oct" | 11 => "Nov" | _ => "Dec"

/-- Rendering of a year-month label as its display string. -/
def fmtYM (m : YM) : String := monthAbbrev m.2 ++ ". " ++ toString m.1

/-- A raw spreadsheet cell, classified by whether pd.to_numeric parses it:
a numeric cell carries its value, a non-numeric cell its text. -/
inductive Cell where
  | num (q : ℚ)
  | nonNum (s : String)
deriving DecidableEq, Repr

/-- pd.to_numeric with errors coerce: numeric cells keep their value,
anything else becomes NaN (none). -/
def Cell.toNum? : Cell → Option ℚ
  | .num q => some q
  | .nonNum _ => none

/-- A raw date-like cell, classified by whether pd.to_datetime with the
mixed format parses it. -/
inductive DateCell where
  | parsed (d : Date)
  | unparseable (s : String)
deriving DecidableEq, Repr

/-- pd.to_datetime with errors coerce: parseable cells yield their date,
anything else becomes NaT (none). -/
def DateCell.toDate? : DateCell → Option Date
  | .parsed d => some d
  | .unparseable _ => none

/-- A pandas float value: NaN, a signed infinity, or a rational. -/
inductive PVal where
  | nan
  | inf
  | ninf
  | val (q : ℚ)
deriving DecidableEq, Repr

/-- Python exceptions raised by the modelled code. -/
inductive PyErr where
  | valueError (msg : String)
  | overflowError
deriving DecidableEq, Repr

/-- Truncation toward zero, the semantics of Python int() on a float. -/
def truncQ (q : ℚ) : ℤ := if 0 ≤ q then ⌊q⌋ else -⌊-q⌋

/-- Round half to even, the semantics of numpy rounding used by the
pandas Series.round method. -/
def roundQ (q : ℚ) : ℤ :=
  let f := ⌊q⌋
  let r := q - (f : ℚ)
  if r < 1/2 then f
  else if 1/2 < r then f + 1
  else if f % 2 = 0 then f else f + 1

/-- IEEE float division of two (finite) values: zero denominator yields
NaN for a zero numerator and a signed infinity otherwise. -/
def divQ (a b : ℚ) : PVal :=
  if b = 0 then
    if a = 0 then .nan else if 0 < a then .inf else .ninf
  else .val (a / b)

/-- Division of two possibly-NaN column values: NaN propagates. -/
def divO (a b : Option ℚ) : PVal :=
  match a, b with
  | some x, some y => divQ x y
  | _, _ => .nan

/-- Subtraction of two possibly-NaN column values: NaN propagates. -/
def subO (a b : Option ℚ) : Option ℚ :=
  match a, b with
  | some x, some y => some (x - y)
  | _, _ => none

/-- Series.fillna(0): NaN becomes 0, infinities pass through. -/
def fillna0 : PVal → PVal
  | .nan => .val 0
  | v => v

/-- Series.replace of both infinities with 0; NaN passes through. -/
def replaceInf0 : PVal → PVal
  | .inf => .val 0
  | .ninf => .val 0
  | v => v

/-- Series.round(0) on a float value (NaN and infinities pass through). -/
def roundP0 : PVal → PVal
  | .val q => .val ((roundQ q : ℤ) : ℚ)
  | v => v

/-- Series.round(2) on a float value (NaN and infinities pass through).
This is the idealized exact-rational two-decimal rounding; the runtime
stores the nearest binary64 double instead, which round2F below models
faithfully — the discrepancy only matters where a claim turns on the
last bit of the stored value. -/
def roundP2 : PVal → PVal
  | .val q => .val (((roundQ (100 * q) : ℤ) : ℚ) / 100)
  | v => v

/-- Multiplication of a float value by a positive rational constant. -/
def pmul (c : ℚ) : PVal → PVal
  | .val q => .val (c * q)
  | v => v

/-- Python int() on a float value: truncates a finite value, raises
OverflowError on an infinity and ValueError on NaN. -/
def intOfPVal : PVal → Except PyErr ℤ
  | .val q => .ok (truncQ q)
  | .nan => .error (.valueError "cannot convert float NaN to integer")
  | .inf => .error .overflowError
  | .ninf => .error .overflowError

/-- The percent formatter applied to ROI columns: int(x * 100) rendered
with a percent sign; raises on NaN or infinity. -/
def pctStrE (v : PVal) : Except PyErr String :=
  match intOfPVal (pmul 100 v) with
  | .ok z => .ok (toString z ++ "%")
  | .error e => .error e

/-- NaN-skipping column sum, the semantics of a pandas groupby sum over a
column that may contain NaN. -/
def sumO {α : Type} (l : List α) (f : α → Option ℚ) : ℚ :=
  (l.map (fun a => (f a).getD 0)).sum

/-- Plain column sum over a NaN-free column. -/
def sumQ {α : Type} (l : List α) (f : α → ℚ) : ℚ :=
  (l.map f).sum

/-- Effectful map that stops at the first raised exception, the shape of
a pandas apply whose function may raise. -/
def mapE {α β : Type} (f : α → Except PyErr β) : List α → Except PyErr (List β)
  | [] => .ok []
  | a :: t =>
    match f a with
    | .error e => .error e
    | .ok b =>
      match mapE f t with
      | .error e => .error e
      | .ok bs => .ok (b :: bs)

/-- Python list.index on the month list: the first index holding the
value, or a raised ValueError when the value is absent. -/
def listIndex : List YM → YM → Except PyErr Nat
  | [], x => .error (.valueError (fmtYM x ++ " is not in list"))
  | a :: t, x =>
    if a = x then .ok 0
    else
      match listIndex t x with
      | .ok i => .ok (i + 1)
      | .error e => .error e

/-- First-match lookup in a keyed table, the semantics of a left merge
against a table whose keys are unique. -/
def lookupYM {β : Type} (tbl : List (YM × β)) (m : YM) : Option β :=
  (tbl.find? (fun p => p.1 = m)).map (fun p => p.2)

deriving instance DecidableEq for Except

/-! ## data.py: record normalization -/

/-- A raw attribution row as fetched from the attribution worksheet. -/
structure RawAttrRow where
  timePeriod : DateCell
  source : String
  campaignName : String
  inquiries : Cell
  pricingSent : Cell
  orders : Cell
  paidOrders : Cell
  totalJobAmount : Cell
  campaignCost : Cell
  costPerClosedSale : Cell
deriving DecidableEq, Repr

/-- A normalized attribution row (data.py lines 39-55). -/
structure AttrRow where
  timePeriod : Option Date
  yearMonth : Option YM
  source : String
  campaignName : String
  inquiries : Option ℚ
  pricingSent : Option ℚ
  orders : Option ℚ
  paidOrders : Option ℚ
  totalJobAmount : Option ℚ
  campaignCost : Option ℚ
  costPerClosedSale : Option ℚ
  costPerLead : PVal
  roiNumeric : PVal
  roi : Except PyErr String
  displaySource : String
deriving DecidableEq, Repr

/-- Coercion plus round(0) applied to the designated numeric columns of
the attribution table (data.py line 49): note there is no fillna, so a
non-numeric cell stays NaN. -/
def attrNum (c : Cell) : Option ℚ :=
  c.toNum?.map (fun q => ((roundQ q : ℤ) : ℚ))

/-- Normalization of one attribution row (data.py lines 39-55): parse the
time period, derive the label, coerce numerics, derive cost per lead and
ROI with infinities replaced by 0 and NaN filled with 0, and derive the
display source from the campaign-name sentinel. -/
def mkAttrRow (r : RawAttrRow) : AttrRow :=
  let tp := r.timePeriod.toDate?
  let inq := attrNum r.inquiries
  let cc := attrNum r.campaignCost
  let tja := attrNum r.totalJobAmount
  let roiN := roundP2 (fillna0 (replaceInf0 (divO (subO tja cc) cc)))
  { timePeriod := tp
    yearMonth := tp.map ymOf
    source := r.source
    campaignName := r.campaignName
    inquiries := inq
    pricingSent := attrNum r.pricingSent
    orders := attrNum r.orders
    paidOrders := attrNum r.paidOrders
    totalJobAmount := tja
    campaignCost := cc
    costPerClosedSale := attrNum r.costPerClosedSale
    costPerLead := roundP0 (fillna0 (replaceInf0 (divO cc inq)))
    roiNumeric := roiN
    roi := pctStrE roiN
    displaySource := if r.campaignName = "N/A" then r.source else r.campaignName }

/-- The full normalized attribution table (no row is dropped). -/
def attributionData (raws : List RawAttrRow) : List AttrRow :=
  raws.map mkAttrRow

/-- A raw order row as fetched from the orders worksheet. -/
structure RawOrderRow where
  timeslot : DateCell
  servicesPrice : Cell
  discountAmount : Cell
  status : String
deriving DecidableEq, Repr

/-- A normalized order row (data.py lines 65-72). -/
structure OrderRow where
  timeslot : Option Date
  yearMonth : Option YM
  servicesPrice : ℚ
  discountAmount : ℚ
  orderTotal : ℚ
  status : String
deriving DecidableEq, Repr

/-- Normalization of one order row: parse the timeslot, derive the label,
coerce the two price columns with fillna(0), and derive the rounded order
total. -/
def mkOrderRow (r : RawOrderRow) : OrderRow :=
  let ts := r.timeslot.toDate?
  let sp := (r.servicesPrice.toNum?).getD 0
  let da := (r.discountAmount.toNum?).getD 0
  { timeslot := ts
    yearMonth := ts.map ymOf
    servicesPrice := sp
    discountAmount := da
    orderTotal := ((roundQ (sp - da) : ℤ) : ℚ)
    status := r.status }

/-- The active order set (data.py lines 65-74): normalized rows minus
cancelled orders and minus rows whose timeslot year is not at least 2020;
a null (NaT) timeslot fails the year comparison and is dropped. -/
def ordersData (raws : List RawOrderRow) : List OrderRow :=
  ((raws.map mkOrderRow).filter (fun r => r.status ≠ "CANCELLED")).filter
    (fun r => (r.timeslot.map (fun d => decide (2020 ≤ d.year))).getD false)

/-- A raw notification row as fetched from the notifications worksheet. -/
structure RawNotifRow where
  datetimeSent : DateCell
  customerId : String
  eventType : String
deriving DecidableEq, Repr

/-- A normalized notification row (data.py lines 90-94). -/
structure NotifRow where
  datetimeSent : Option Date
  yearMonth : Option YM
  customerId : String
  eventType : String
deriving DecidableEq, Repr

/-- Normalization of one notification row. -/
def mkNotifRow (r : RawNotifRow) : NotifRow :=
  let ds := r.datetimeSent.toDate?
  { datetimeSent := ds
    yearMonth := ds.map ymOf
    customerId := r.customerId
    eventType := r.eventType }

/-- The notification event types retained by the pipeline. -/
def allowedEvents : List String := ["send_dashboard", "estimates_sent"]

/-- The deduplication key used by drop_duplicates: the customer id with
the (possibly null) year-month label; pandas treats null labels as equal
to each other for duplicate detection. -/
def notifKey (r : NotifRow) : String × Option YM := (r.customerId, r.yearMonth)

/-- drop_duplicates keeping the first occurrence of each key; the seen
argument carries the keys already kept. -/
def dedupByKey : List NotifRow → List (String × Option YM) → List NotifRow
  | [], _ => []
  | r :: rs, seen =>
    if notifKey r ∈ seen then dedupByKey rs seen
    else r :: dedupByKey rs (notifKey r :: seen)

/-- The deduplicated notification set (data.py lines 90-98): normalize,
keep only allowed event types, then drop per-(customer, month)
duplicates keeping the first occurrence. -/
def notificationsDeduped (raws : List RawNotifRow) : List NotifRow :=
  dedupByKey ((raws.map mkNotifRow).filter (fun r => r.eventType ∈ allowedEvents)) []

/-- MonthlyPricingSent (data.py line 100): the per-month count of
deduplicated notification rows; rows with a null label are dropped by
the groupby.  (pandas emits group keys in sorted order; key order is
irrelevant to every property stated below, so first-encounter order is
used.) -/
def pricingSentData (raws : List RawNotifRow) : List (YM × Nat) :=
  let d := notificationsDeduped raws
  ((d.filterMap (fun r => r.yearMonth)).dedup).map
    (fun m => (m, (d.filter (fun r => r.yearMonth = some m)).length))

/-! ## app.py: prepare_data aggregation engine -/

/-- The aggregation selector passed to prepare_data. -/
inductive AggType where
  | source
  | campaign
deriving DecidableEq, Repr

/-- The groupby column chosen by the aggregation selector (app.py line
58): the Source column, or the Display Source column. -/
def aggKeyFn : AggType → AttrRow → String
  | .source => fun r => r.source
  | .campaign => fun r => r.displaySource

/-- One row of the grouped rollup agg_data (app.py lines 59-68). -/
structure GroupRow where
  key : String
  inquiries : ℚ
  pricingSent : ℚ
  orders : ℚ
  paidOrders : ℚ
  totalJobAmount : ℚ
  campaignCost : ℚ
  costPerLead : PVal
  conversionRate : PVal
  bookingRate : PVal
  roiNumeric : PVal
  roi : String
  month : String
  displaySource : String
deriving DecidableEq, Repr

/-- One row of the monthly rollup monthly_agg (app.py lines 71-83). -/
structure MonthlyRow where
  yearMonth : YM
  inquiries : ℚ
  newOrders : ℚ
  campaignCost : ℚ
  totalJobAmount : ℚ
  pricingSent : ℚ
  orderTotal : ℚ
  totalOrders : Nat
  costPerLead : PVal
  conversionRate : PVal
  bookingRate : PVal
  roiNumeric : PVal
  roi : String
deriving DecidableEq, Repr

/-- The range-membership test applied to a row's (possibly null) label:
Series.isin against a list of concrete labels never matches a null. -/
def inRange (sel : List YM) (ym : Option YM) : Bool :=
  match ym with
  | some y => sel.contains y
  | none => false

/-- The chronological order on year-month labels as a relation. -/
def ymRel (a b : YM) : Prop := ymLE a b = true

instance : DecidableRel ymRel := fun a b => instDecidableEqBool (ymLE a b) true

/-- The sorted list of distinct year-month labels present in the
attribution table (app.py lines 47-48), under the idealization that
every attribution date parsed: then unique() yields no null label, the
to-datetime sort keys are total, and sorted() is a chronological sort.
When some date failed to parse, unique() additionally yields the null
label and the NaT key makes the comparison partial, so CPython's sort
need not order the labels chronologically at all: allMonthsPy below is
the faithful model of that general case. -/
def allMonthsOf (attr : List AttrRow) : List YM :=
  List.insertionSort ymRel ((attr.filterMap (fun r => r.yearMonth)).dedup)

/-- The contiguous slice of the sorted label list selected by the two
endpoints (app.py lines 50-52); list.index raises a ValueError when an
endpoint is absent, and the Python slice of indices start..end+1 clamps
to empty when start exceeds end. -/
def selectedMonths (attr : List AttrRow) (startMonth endMonth : YM) :
    Except PyErr (List YM) :=
  let all := allMonthsOf attr
  match listIndex all startMonth with
  | .error e => .error e
  | .ok startIdx =>
    match listIndex all endMonth with
    | .error e => .error e
    | .ok endIdx => .ok ((all.drop startIdx).take (endIdx + 1 - startIdx))

/-- The rows of one group of the grouped rollup. -/
def groupOf (filtered : List AttrRow) (key : AttrRow → String) (k : String) :
    List AttrRow :=
  filtered.filter (fun r => key r = k)

/-- A groupwise column sum of the grouped rollup. -/
def gSum (filtered : List AttrRow) (key : AttrRow → String) (k : String)
    (f : AttrRow → Option ℚ) : ℚ :=
  sumO (groupOf filtered key k) f

/-- The ROI ratio of one group (app.py lines 64-65). -/
def gRoiNum (filtered : List AttrRow) (key : AttrRow → String) (k : String) : PVal :=
  roundP2 (fillna0 (divQ
    (gSum filtered key k (fun r => r.totalJobAmount)
      - gSum filtered key k (fun r => r.campaignCost))
    (gSum filtered key k (fun r => r.campaignCost))))

/-- One grouped-rollup row (app.py lines 59-68): the six summed columns
over the rows of the group, the four derived ratios with NaN filled to 0,
the formatted ROI string (which raises on a non-finite ratio), the period
label, and the Display Source column copied from the groupby key. -/
def mkGroupRow (filtered : List AttrRow) (key : AttrRow → String)
    (period : String) (k : String) : Except PyErr GroupRow :=
  match pctStrE (gRoiNum filtered key k) with
  | .error e => .error e
  | .ok roiS =>
    .ok { key := k
          inquiries := gSum filtered key k (fun r => r.inquiries)
          pricingSent := gSum filtered key k (fun r => r.pricingSent)
          orders := gSum filtered key k (fun r => r.orders)
          paidOrders := gSum filtered key k (fun r => r.paidOrders)
          totalJobAmount := gSum filtered key k (fun r => r.totalJobAmount)
          campaignCost := gSum filtered key k (fun r => r.campaignCost)
          costPerLead := roundP0 (fillna0 (divQ
            (gSum filtered key k (fun r => r.campaignCost))
            (gSum filtered key k (fun r => r.inquiries))))
          conversionRate := roundP2 (fillna0 (divQ
            (gSum filtered key k (fun r => r.orders))
            (gSum filtered key k (fun r => r.pricingSent))))
          bookingRate := roundP2 (fillna0 (divQ
            (gSum filtered key k (fun r => r.pricingSent))
            (gSum filtered key k (fun r => r.inquiries))))
          roiNumeric := gRoiNum filtered key k
          roi := roiS
          month := period
          displaySource := k }

/-- The per-month order-total table (app.py line 75 and line 96): group
the given order rows by label and sum the order totals; rows with a null
label are dropped by the groupby. -/
def monthlyOrderTotals (ords : List OrderRow) : List (YM × ℚ) :=
  ((ords.filterMap (fun r => r.yearMonth)).dedup).map
    (fun m => (m, sumQ (ords.filter (fun r => r.yearMonth = some m)) (fun r => r.orderTotal)))

/-- One monthly-rollup row (app.py lines 71-83): sums of the four
attribution columns over the month, the left-merged pricing-sent count
and order totals with missing values filled to 0 and rounded, the raw
order count for the month, and the four derived ratios with the
formatted ROI string. -/
def monthOf (filtered : List AttrRow) (m : YM) : List AttrRow :=
  filtered.filter (fun r => r.yearMonth = some m)

/-- A monthwise column sum of the monthly rollup. -/
def mSum (filtered : List AttrRow) (m : YM) (f : AttrRow → Option ℚ) : ℚ :=
  sumO (monthOf filtered m) f

/-- The merged pricing-sent count of one month (app.py lines 73-74). -/
def mPricing (pricing : List (YM × Nat)) (m : YM) : ℚ :=
  ((roundQ (((lookupYM pricing m).map (fun n => (n : ℚ))).getD 0) : ℤ) : ℚ)

/-- The merged order total of one month (app.py lines 75-76). -/
def mOrderTotal (ords : List OrderRow) (m : YM) : ℚ :=
  ((roundQ (((lookupYM (monthlyOrderTotals ords) m)).getD 0) : ℤ) : ℚ)

/-- The ROI ratio of one month (app.py lines 81-82). -/
def mRoiNum (filtered : List AttrRow) (m : YM) : PVal :=
  roundP2 (fillna0 (divQ
    (mSum filtered m (fun r => r.totalJobAmount)
      - mSum filtered m (fun r => r.campaignCost))
    (mSum filtered m (fun r => r.campaignCost))))

def mkMonthlyRow (filtered : List AttrRow) (ords : List OrderRow)
    (pricing : List (YM × Nat)) (m : YM) : Except PyErr MonthlyRow :=
  match pctStrE (mRoiNum filtered m) with
  | .error e => .error e
  | .ok roiS =>
    .ok { yearMonth := m
          inquiries := mSum filtered m (fun r => r.inquiries)
          newOrders := mSum filtered m (fun r => r.orders)
          campaignCost := mSum filtered m (fun r => r.campaignCost)
          totalJobAmount := mSum filtered m (fun r => r.totalJobAmount)
          pricingSent := mPricing pricing m
          orderTotal := mOrderTotal ords m
          totalOrders := (ords.filter (fun r => r.yearMonth = some m)).length
          costPerLead := roundP0 (fillna0 (divQ
            (mSum filtered m (fun r => r.campaignCost))
            (mSum filtered m (fun r => r.inquiries))))
          conversionRate := roundP2 (fillna0 (divQ
            (mSum filtered m (fun r => r.orders))
            (mPricing pricing m)))
          bookingRate := roundP2 (fillna0 (divQ
            (mPricing pricing m)
            (mSum filtered m (fun r => r.inquiries))))
          roiNumeric := mRoiNum filtered m
          roi := roiS }

/-- The attribution rows whose label falls in the selected slice (app.py
line 56). -/
def rangeFiltered (attr : List AttrRow) (sel : List YM) : List AttrRow :=
  attr.filter (fun r => inRange sel r.yearMonth)

/-- The period label of the grouped rollup (app.py line 67). -/
def periodLabel (startMonth endMonth : YM) : String :=
  if startMonth = endMonth then fmtYM startMonth
  else fmtYM startMonth ++ " - " ++ fmtYM endMonth

/-- The body of prepare_data once the month slice is known (app.py lines
55-98): filter the attribution table to the slice, build the grouped
rollup over the chosen key, build the monthly rollup over the distinct
labels of the filtered table and sort it chronologically by the
parsed-back label, and build the revenue rollup from the range-filtered
orders. -/
def prepareCore (attr : List AttrRow) (ords : List OrderRow)
    (pricing : List (YM × Nat)) (sel : List YM)
    (startMonth endMonth : YM) (t : AggType) :
    Except PyErr (List GroupRow × List MonthlyRow × List (YM × ℚ)) :=
  match mapE (mkGroupRow (rangeFiltered attr sel) (aggKeyFn t) (periodLabel startMonth endMonth))
      (((rangeFiltered attr sel).map (aggKeyFn t)).dedup) with
  | .error e => .error e
  | .ok aggRows =>
    match mapE (mkMonthlyRow (rangeFiltered attr sel) ords pricing)
        (((rangeFiltered attr sel).filterMap (fun r => r.yearMonth)).dedup) with
    | .error e => .error e
    | .ok monthlyBase =>
      .ok (aggRows,
        List.insertionSort (fun a b => ymRel a.yearMonth b.yearMonth) monthlyBase,
        monthlyOrderTotals (ords.filter (fun r => inRange sel r.yearMonth)))

/-- The query boundary prepare_data (app.py lines 41-98): an empty
attribution table short-circuits to three empty tables; otherwise the
month slice is computed (raising a ValueError when an endpoint is not
among the available labels) and the three rollups are built. -/
def prepareData (attr : List AttrRow) (ords : List OrderRow)
    (pricing : List (YM × Nat)) (startMonth endMonth : YM) (t : AggType) :
    Except PyErr (List GroupRow × List MonthlyRow × List (YM × ℚ)) :=
  if attr.isEmpty then .ok ([], [], [])
  else
    match selectedMonths attr startMonth endMonth with
    | .error e => .error e
    | .ok sel => prepareCore attr ords pricing sel startMonth endMonth t

/-- Recognizer for a raised ValueError result. -/
def isValueError {α : Type} : Except PyErr α → Bool
  | .error (.valueError _) => true
  | _ => false

/-! ## The faithful label pipeline of app.py lines 47-52

The definitions above idealize the label list: they drop the null label
that Series.unique() returns for rows whose date failed to parse, and
they model sorted() as a chronological sort even though the NaT sort key
of the null label compares False against everything.  The definitions
below model that pipeline faithfully: labels are Option YM (none is the
nan/NaT label), unique keeps the first occurrence of every value
including the null, and the sort is CPython's list sort (for fewer than
64 elements: the natural initial run, descending runs reversed, then
binary insertion of each remaining element) driven by the partial NaT
comparison. -/

/-- Comparison of two labels through the to-datetime sort key of app.py
line 48: errors="coerce" maps the null label to NaT, and NaT compares
False against everything, itself included. -/
def ltNaT (a b : Option YM) : Bool :=
  match a, b with
  | some x, some y => ymLT x y
  | _, _ => false

/-- Worker of uniquePy, carrying the set of values already emitted. -/
def uniquePyAux : List (Option YM) → List (Option YM) → List (Option YM)
  | [], _ => []
  | x :: rest, seen =>
    if x ∈ seen then uniquePyAux rest seen else x :: uniquePyAux rest (x :: seen)

/-- pandas Series.unique: the distinct values of the label column in
order of first appearance, the null label kept like any other value. -/
def uniquePy (l : List (Option YM)) : List (Option YM) := uniquePyAux l []

/-- The binary-search loop of CPython's binarysort, locating the
insertion point of x within indices l..r of the sorted prefix a: while
l < r, probe mid = (l+r)/2 and shrink to the left half when x compares
below a[mid], to the right half otherwise.  The fuel argument bounds the
iteration count, which the loop never reaches. -/
def binPosAux (lt : Option YM → Option YM → Bool) (x : Option YM)
    (a : List (Option YM)) : Nat → Nat → Nat → Nat
  | 0, l, _ => l
  | fuel + 1, l, r =>
    if l < r then
      if lt x (a.getD ((l + r) / 2) none) then binPosAux lt x a fuel l ((l + r) / 2)
      else binPosAux lt x a fuel ((l + r) / 2 + 1) r
    else l

/-- One step of binarysort: insert x into the sorted prefix at the
position found by binary search (after any element it does not compare
strictly below, keeping the sort stable). -/
def binInsert (lt : Option YM → Option YM → Bool)
    (sorted : List (Option YM)) (x : Option YM) : List (Option YM) :=
  sorted.take (binPosAux lt x sorted (sorted.length + 1) 0 sorted.length) ++
    x :: sorted.drop (binPosAux lt x sorted (sorted.length + 1) 0 sorted.length)

/-- CPython binarysort: extend the sorted initial run by binary-inserting
each remaining element in turn. -/
def binsort (lt : Option YM → Option YM → Bool)
    (run : List (Option YM)) (rest : List (Option YM)) : List (Option YM) :=
  rest.foldl (binInsert lt) run

/-- The ascending branch of CPython's count_run: consume elements while
each fails to compare strictly below its predecessor; acc holds the run
reversed. -/
def ascRun (lt : Option YM → Option YM → Bool) :
    Option YM → List (Option YM) → List (Option YM) →
    List (Option YM) × List (Option YM)
  | _, acc, [] => (acc.reverse, [])
  | prev, acc, x :: rest =>
    if lt x prev then (acc.reverse, x :: rest) else ascRun lt x (x :: acc) rest

/-- The strictly-descending branch of CPython's count_run: consume
elements while each compares strictly below its predecessor; acc holds
the run already reversed, which is the reversal CPython applies. -/
def descRun (lt : Option YM → Option YM → Bool) :
    Option YM → List (Option YM) → List (Option YM) →
    List (Option YM) × List (Option YM)
  | _, acc, [] => (acc, [])
  | prev, acc, x :: rest =>
    if lt x prev then descRun lt x (x :: acc) rest else (acc, x :: rest)

/-- CPython's list sort on fewer than 64 elements (the regime of the
month-label list): detect the natural initial run — strictly descending
if the second element compares below the first, reversed in place;
ascending otherwise — then binary-insert every remaining element. -/
def pySort (lt : Option YM → Option YM → Bool) :
    List (Option YM) → List (Option YM)
  | [] => []
  | [x] => [x]
  | a :: b :: rest =>
    if lt b a then binsort lt (descRun lt b [b, a] rest).1 (descRun lt b [b, a] rest).2
    else binsort lt (ascRun lt b [b, a] rest).1 (ascRun lt b [b, a] rest).2

/-- The label list of app.py lines 47-48 computed faithfully: unique in
first-appearance order (the null label of unparsed dates included), then
CPython-sorted under the NaT-coerced key comparison. -/
def allMonthsPy (attr : List AttrRow) : List (Option YM) :=
  pySort ltNaT (uniquePy (attr.map (fun r => r.yearMonth)))

/-- Python list.index on the faithful label list. -/
def listIndexPy : List (Option YM) → YM → Except PyErr Nat
  | [], x => .error (.valueError (fmtYM x ++ " is not in list"))
  | a :: t, x =>
    if a = some x then .ok 0
    else
      match listIndexPy t x with
      | .ok i => .ok (i + 1)
      | .error e => .error e

/-- The selected slice of the faithful label list (app.py lines 50-52). -/
def selectedMonthsPy (attr : List AttrRow) (startMonth endMonth : YM) :
    Except PyErr (List (Option YM)) :=
  match listIndexPy (allMonthsPy attr) startMonth with
  | .error e => .error e
  | .ok startIdx =>
    match listIndexPy (allMonthsPy attr) endMonth with
    | .error e => .error e
    | .ok endIdx =>
      .ok (((allMonthsPy attr).drop startIdx).take (endIdx + 1 - startIdx))

/-- The range filter of app.py line 56 against the faithful slice:
Series.isin matches the null label against a null in the value list, so
a row whose date failed to parse is kept whenever the slice contains the
null label. -/
def rangeFilteredPy (attr : List AttrRow) (sel : List (Option YM)) : List AttrRow :=
  attr.filter (fun r => sel.contains r.yearMonth)

/-- The body of prepare_data over the faithful slice: identical to
prepareCore except that the slice is a list of possibly-null labels and
the range filters compare whole labels (the null-labelled attribution
rows reach the grouped rollup through the Display Source groupby, while
the YearMonth groupby of the monthly rollup still drops them). -/
def prepareCorePy (attr : List AttrRow) (ords : List OrderRow)
    (pricing : List (YM × Nat)) (sel : List (Option YM))
    (startMonth endMonth : YM) (t : AggType) :
    Except PyErr (List GroupRow × List MonthlyRow × List (YM × ℚ)) :=
  match mapE (mkGroupRow (rangeFilteredPy attr sel) (aggKeyFn t) (periodLabel startMonth endMonth))
      (((rangeFilteredPy attr sel).map (aggKeyFn t)).dedup) with
  | .error e => .error e
  | .ok aggRows =>
    match mapE (mkMonthlyRow (rangeFilteredPy attr sel) ords pricing)
        (((rangeFilteredPy attr sel).filterMap (fun r => r.yearMonth)).dedup) with
    | .error e => .error e
    | .ok monthlyBase =>
      .ok (aggRows,
        List.insertionSort (fun a b => ymRel a.yearMonth b.yearMonth) monthlyBase,
        monthlyOrderTotals (ords.filter (fun r => sel.contains r.yearMonth)))

/-- The query boundary prepare_data over the faithful label pipeline. -/
def prepareDataPy (attr : List AttrRow) (ords : List OrderRow)
    (pricing : List (YM × Nat)) (startMonth endMonth : YM) (t : AggType) :
    Except PyErr (List GroupRow × List MonthlyRow × List (YM × ℚ)) :=
  if attr.isEmpty then .ok ([], [], [])
  else
    match selectedMonthsPy attr startMonth endMonth with
    | .error e => .error e
    | .ok sel => prepareCorePy attr ords pricing sel startMonth endMonth t

/-! ## Concrete fixtures for witnesses and counterexamples -/

/-- A normalized attribution row: Google, May 2024, the figures of the
Scenario A acceptance case. -/
def sampleA1 : AttrRow :=
  { timePeriod := some ⟨2024, 5, 1⟩, yearMonth := some (2024, 5), source := "Google",
    campaignName := "N/A", inquiries := some 100, pricingSent := some 50,
    orders := some 10, paidOrders := some 5, totalJobAmount := some 2000,
    campaignCost := some 500, costPerClosedSale := some 0,
    costPerLead := .val 5, roiNumeric := .val 3, roi := .ok "300%",
    displaySource := "Google" }

/-- A normalized attribution row: Yelp, June 2024. -/
def sampleA2 : AttrRow :=
  { timePeriod := some ⟨2024, 6, 1⟩, yearMonth := some (2024, 6), source := "Yelp",
    campaignName := "N/A", inquiries := some 4, pricingSent := some 2,
    orders := some 1, paidOrders := some 1, totalJobAmount := some 300,
    campaignCost := some 100, costPerClosedSale := some 0,
    costPerLead := .val 25, roiNumeric := .val 2, roi := .ok "200%",
    displaySource := "Yelp" }

/-- A two-month attribution table. -/
def attrW : List AttrRow := [sampleA1, sampleA2]

/-- A normalized active order: May 2024, 120 minus 20 discount. -/
def sampleO1 : OrderRow :=
  { timeslot := some ⟨2024, 5, 10⟩, yearMonth := some (2024, 5),
    servicesPrice := 120, discountAmount := 20, orderTotal := 100,
    status := "COMPLETED" }

def ordersW : List OrderRow := [sampleO1]

def pricingW : List (YM × Nat) := [((2024, 5), 5), ((2024, 6), 2)]

/-- An all-zero attribution row for May 2024, source A. -/
def sampleZ1 : AttrRow :=
  { timePeriod := some ⟨2024, 5, 1⟩, yearMonth := some (2024, 5), source := "A",
    campaignName := "N/A", inquiries := some 0, pricingSent := some 0,
    orders := some 0, paidOrders := some 0, totalJobAmount := some 0,
    campaignCost := some 0, costPerClosedSale := some 0,
    costPerLead := .val 0, roiNumeric := .val 0, roi := .ok "0%",
    displaySource := "A" }

/-- An all-zero attribution row for June 2024, source B. -/
def sampleZ2 : AttrRow :=
  { timePeriod := some ⟨2024, 6, 1⟩, yearMonth := some (2024, 6), source := "B",
    campaignName := "N/A", inquiries := some 0, pricingSent := some 0,
    orders := some 0, paidOrders := some 0, totalJobAmount := some 0,
    campaignCost := some 0, costPerClosedSale := some 0,
    costPerLead := .val 0, roiNumeric := .val 0, roi := .ok "0%",
    displaySource := "B" }

def attrZ : List AttrRow := [sampleZ1, sampleZ2]

/-- A normalized attribution row whose campaign cost is positive while
every funnel count is zero: the denominators of the derived ratios
vanish with a nonzero numerator. -/
def sampleD : AttrRow :=
  { timePeriod := some ⟨2024, 5, 1⟩, yearMonth := some (2024, 5), source := "Ads",
    campaignName := "N/A", inquiries := some 0, pricingSent := some 0,
    orders := some 0, paidOrders := some 0, totalJobAmount := some 0,
    campaignCost := some 100, costPerClosedSale := some 0,
    costPerLead := .val 0, roiNumeric := .val (-1), roi := .ok "-100%",
    displaySource := "Ads" }

/-- The raw row normalizing to a zero-inquiry, positive-cost row. -/
def rawD : RawAttrRow :=
  { timePeriod := .parsed ⟨2024, 5, 1⟩, source := "Ads", campaignName := "N/A",
    inquiries := .num 0, pricingSent := .num 0, orders := .num 0,
    paidOrders := .num 0, totalJobAmount := .num 0, campaignCost := .num 100,
    costPerClosedSale := .num 0 }

/-- A raw attribution row whose designated numeric cells are all
non-numeric text. -/
def rawBadNum : RawAttrRow :=
  { timePeriod := .parsed ⟨2024, 5, 1⟩, source := "Google", campaignName := "N/A",
    inquiries := .nonNum "abc", pricingSent := .nonNum "x", orders := .nonNum "y",
    paidOrders := .nonNum "z", totalJobAmount := .nonNum "w", campaignCost := .nonNum "v",
    costPerClosedSale := .nonNum "u" }

/-- A raw order row whose numeric cells are non-numeric text. -/
def rawBadNumOrder : RawOrderRow :=
  { timeslot := .parsed ⟨2024, 5, 10⟩, servicesPrice := .nonNum "abc",
    discountAmount := .nonNum "def", status := "COMPLETED" }

/-- A raw order row with an unparseable timeslot and a valid status. -/
def rawBadDateOrder : RawOrderRow :=
  { timeslot := .unparseable "not a date", servicesPrice := .num 120,
    discountAmount := .num 20, status := "COMPLETED" }

/-- A raw order row that survives the active-set filters. -/
def rawGoodOrder : RawOrderRow :=
  { timeslot := .parsed ⟨2024, 5, 10⟩, servicesPrice := .num 120,
    discountAmount := .num 20, status := "COMPLETED" }

/-- A raw attribution row with an unparseable time period. -/
def rawBadDateAttr : RawAttrRow :=
  { timePeriod := .unparseable "garbage", source := "Google", campaignName := "N/A",
    inquiries := .num 1, pricingSent := .num 1, orders := .num 1,
    paidOrders := .num 1, totalJobAmount := .num 1, campaignCost := .num 1,
    costPerClosedSale := .num 1 }

/-- A raw notification row with an unparseable datetime. -/
def rawBadDateNotif : RawNotifRow :=
  { datetimeSent := .unparseable "garbage", customerId := "c9", eventType := "send_dashboard" }

/-- Notification fixture: a duplicate May send for alice, an ignored
event for bob, and a June send for bob. -/
def notifW : List RawNotifRow :=
  [ { datetimeSent := .parsed ⟨2024, 5, 3⟩, customerId := "alice", eventType := "send_dashboard" },
    { datetimeSent := .parsed ⟨2024, 5, 9⟩, customerId := "alice", eventType := "estimates_sent" },
    { datetimeSent := .parsed ⟨2024, 5, 11⟩, customerId := "bob", eventType := "payment_made" },
    { datetimeSent := .parsed ⟨2024, 6, 2⟩, customerId := "bob", eventType := "send_dashboard" } ]

/-- Expected grouped-rollup row for Google over the two-month range. -/
def sampleG1 : GroupRow :=
  { key := "Google", inquiries := 100, pricingSent := 50, orders := 10,
    paidOrders := 5, totalJobAmount := 2000, campaignCost := 500,
    costPerLead := .val 5, conversionRate := .val (1/5), bookingRate := .val (1/2),
    roiNumeric := .val 3, roi := "300%", month := "May. 2024 - Jun. 2024",
    displaySource := "Google" }

/-- Expected grouped-rollup row for Yelp over the two-month range. -/
def sampleG2 : GroupRow :=
  { key := "Yelp", inquiries := 4, pricingSent := 2, orders := 1,
    paidOrders := 1, totalJobAmount := 300, campaignCost := 100,
    costPerLead := .val 25, conversionRate := .val (1/2), bookingRate := .val (1/2),
    roiNumeric := .val 2, roi := "200%", month := "May. 2024 - Jun. 2024",
    displaySource := "Yelp" }

/-- Expected monthly-rollup row for May 2024. -/
def sampleM1 : MonthlyRow :=
  { yearMonth := (2024, 5), inquiries := 100, newOrders := 10, campaignCost := 500,
    totalJobAmount := 2000, pricingSent := 5, orderTotal := 100, totalOrders := 1,
    costPerLead := .val 5, conversionRate := .val 2, bookingRate := .val (1/20),
    roiNumeric := .val 3, roi := "300%" }

/-- Expected monthly-rollup row for June 2024. -/
def sampleM2 : MonthlyRow :=
  { yearMonth := (2024, 6), inquiries := 4, newOrders := 1, campaignCost := 100,
    totalJobAmount := 300, pricingSent := 2, orderTotal := 0, totalOrders := 0,
    costPerLead := .val 25, conversionRate := .val (1/2), bookingRate := .val (1/2),
    roiNumeric := .val 2, roi := "200%" }

/-- Expected grouped-rollup row for the all-zero May-only query. -/
def sampleGZ : GroupRow :=
  { key := "A", inquiries := 0, pricingSent := 0, orders := 0,
    paidOrders := 0, totalJobAmount := 0, campaignCost := 0,
    costPerLead := .val 0, conversionRate := .val 0, bookingRate := .val 0,
    roiNumeric := .val 0, roi := "0%", month := "May. 2024",
    displaySource := "A" }

/-- Expected monthly-rollup row for the all-zero May-only query. -/
def sampleMZ : MonthlyRow :=
  { yearMonth := (2024, 5), inquiries := 0, newOrders := 0, campaignCost := 0,
    totalJobAmount := 0, pricingSent := 0, orderTotal := 0, totalOrders := 0,
    costPerLead := .val 0, conversionRate := .val 0, bookingRate := .val 0,
    roiNumeric := .val 0, roi := "0%" }

/-- An all-zero attribution row for May 2024, source A, for the
partial-order label fixture. -/
def samplePMay : AttrRow :=
  { timePeriod := some ⟨2024, 5, 1⟩, yearMonth := some (2024, 5), source := "A",
    campaignName := "N/A", inquiries := some 0, pricingSent := some 0,
    orders := some 0, paidOrders := some 0, totalJobAmount := some 0,
    campaignCost := some 0, costPerClosedSale := some 0,
    costPerLead := .val 0, roiNumeric := .val 0, roi := .ok "0%",
    displaySource := "A" }

/-- An all-zero attribution row whose date failed to parse: its label is
null and it sits between the two parsed rows of the fixture. -/
def samplePBad : AttrRow :=
  { timePeriod := none, yearMonth := none, source := "B",
    campaignName := "N/A", inquiries := some 0, pricingSent := some 0,
    orders := some 0, paidOrders := some 0, totalJobAmount := some 0,
    campaignCost := some 0, costPerClosedSale := some 0,
    costPerLead := .val 0, roiNumeric := .val 0, roi := .ok "0%",
    displaySource := "B" }

/-- An all-zero attribution row for January 2024, source C. -/
def samplePJan : AttrRow :=
  { timePeriod := some ⟨2024, 1, 1⟩, yearMonth := some (2024, 1), source := "C",
    campaignName := "N/A", inquiries := some 0, pricingSent := some 0,
    orders := some 0, paidOrders := some 0, totalJobAmount := some 0,
    campaignCost := some 0, costPerClosedSale := some 0,
    costPerLead := .val 0, roiNumeric := .val 0, roi := .ok "0%",
    displaySource := "C" }

/-- The attribution fixture whose label list the NaT key leaves
mis-ordered: May, then the null label, then January. -/
def attrP : List AttrRow := [samplePMay, samplePBad, samplePJan]

/-- Expected grouped-rollup row for source A of the reversed query. -/
def sampleP1 : GroupRow :=
  { key := "A", inquiries := 0, pricingSent := 0, orders := 0,
    paidOrders := 0, totalJobAmount := 0, campaignCost := 0,
    costPerLead := .val 0, conversionRate := .val 0, bookingRate := .val 0,
    roiNumeric := .val 0, roi := "0%", month := "May. 2024 - Jan. 2024",
    displaySource := "A" }

/-- Expected grouped-rollup row for source B of the reversed query. -/
def sampleP2 : GroupRow :=
  { key := "B", inquiries := 0, pricingSent := 0, orders := 0,
    paidOrders := 0, totalJobAmount := 0, campaignCost := 0,
    costPerLead := .val 0, conversionRate := .val 0, bookingRate := .val 0,
    roiNumeric := .val 0, roi := "0%", month := "May. 2024 - Jan. 2024",
    displaySource := "B" }

/-- Expected grouped-rollup row for source C of the reversed query. -/
def sampleP3 : GroupRow :=
  { key := "C", inquiries := 0, pricingSent := 0, orders := 0,
    paidOrders := 0, totalJobAmount := 0, campaignCost := 0,
    costPerLead := .val 0, conversionRate := .val 0, bookingRate := .val 0,
    roiNumeric := .val 0, roi := "0%", month := "May. 2024 - Jan. 2024",
    displaySource := "C" }

/-- Expected monthly-rollup row for January 2024 of the reversed query. -/
def samplePM1 : MonthlyRow :=
  { yearMonth := (2024, 1), inquiries := 0, newOrders := 0, campaignCost := 0,
    totalJobAmount := 0, pricingSent := 0, orderTotal := 0, totalOrders := 0,
    costPerLead := .val 0, conversionRate := .val 0, bookingRate := .val 0,
    roiNumeric := .val 0, roi := "0%" }

/-- Expected monthly-rollup row for May 2024 of the reversed query. -/
def samplePM5 : MonthlyRow :=
  { yearMonth := (2024, 5), inquiries := 0, newOrders := 0, campaignCost := 0,
    totalJobAmount := 0, pricingSent := 0, orderTotal := 0, totalOrders := 0,
    costPerLead := .val 0, conversionRate := .val 0, bookingRate := .val 0,
    roiNumeric := .val 0, roi := "0%" }

/-! ## Basic lemmas about the building blocks -/

theorem roundQ_intCast (n : ℤ) : roundQ ((n : ℤ) : ℚ) = n := by
  simp [roundQ, Int.floor_intCast]

theorem truncQ_intCast (n : ℤ) : truncQ ((n : ℤ) : ℚ) = n := by
  unfold truncQ
  rcases le_or_lt 0 ((n : ℤ) : ℚ) with h | h
  · simp [h, Int.floor_intCast]
  · rw [if_neg (not_le.mpr h), ← Int.cast_neg, Int.floor_intCast]
    omega

theorem ymRel_iff (a b : YM) : ymRel a b ↔ (a.1 < b.1 ∨ (a.1 = b.1 ∧ a.2 ≤ b.2)) := by
  simp [ymRel, ymLE, Bool.or_eq_true, Bool.and_eq_true, decide_eq_true_iff]

theorem ymLT_iff (a b : YM) : ymLT a b = true ↔ (a.1 < b.1 ∨ (a.1 = b.1 ∧ a.2 < b.2)) := by
  simp [ymLT, Bool.or_eq_true, Bool.and_eq_true, decide_eq_true_iff]

theorem ymRel_total (a b : YM) : ymRel a b ∨ ymRel b a := by
  rw [ymRel_iff, ymRel_iff]; omega

theorem ymRel_trans (a b c : YM) : ymRel a b → ymRel b c → ymRel a c := by
  rw [ymRel_iff, ymRel_iff, ymRel_iff]; omega

theorem ymRel_not_of_ymLT (a b : YM) : ymLT a b = true → ¬ ymRel b a := by
  rw [ymLT_iff, ymRel_iff]; omega

/-- Sortedness of an insertion sort for an explicitly total and
transitive relation. -/
theorem sorted_insertionSort_of {α : Type} (r : α → α → Prop) [DecidableRel r]
    (htot : ∀ a b, r a b ∨ r b a) (htrans : ∀ a b c, r a b → r b c → r a c)
    (l : List α) : List.Sorted r (List.insertionSort r l) := by
  haveI : IsTotal α r := ⟨htot⟩
  haveI : IsTrans α r := ⟨fun a b c => htrans a b c⟩
  exact List.sorted_insertionSort r l

theorem mapE_ok_mem {α β : Type} {f : α → Except PyErr β} :
    ∀ {l : List α} {ys : List β}, mapE f l = .ok ys →
      ∀ y ∈ ys, ∃ a ∈ l, f a = .ok y := by
  intro l
  induction l with
  | nil =>
    intro ys h y hy
    simp only [mapE] at h
    cases h
    simp at hy
  | cons a t ih =>
    intro ys h y hy
    simp only [mapE] at h
    cases hfa : f a with
    | error e => rw [hfa] at h; cases h
    | ok b =>
      rw [hfa] at h
      cases hft : mapE f t with
      | error e => rw [hft] at h; cases h
      | ok bs =>
        rw [hft] at h
        cases h
        rcases List.mem_cons.mp hy with rfl | hmem
        · exact ⟨a, List.mem_cons_self a t, hfa⟩
        · rcases ih hft y hmem with ⟨x, hx, hfx⟩
          exact ⟨x, List.mem_cons_of_mem a hx, hfx⟩

theorem mapE_ok_map {α β γ : Type} {f : α → Except PyErr β}
    {proj : β → γ} {g : α → γ}
    (hpres : ∀ a b, f a = .ok b → proj b = g a) :
    ∀ {l : List α} {ys : List β}, mapE f l = .ok ys →
      ys.map proj = l.map g := by
  intro l
  induction l with
  | nil =>
    intro ys h
    simp only [mapE] at h
    cases h
    rfl
  | cons a t ih =>
    intro ys h
    simp only [mapE] at h
    cases hfa : f a with
    | error e => rw [hfa] at h; cases h
    | ok b =>
      rw [hfa] at h
      cases hft : mapE f t with
      | error e => rw [hft] at h; cases h
      | ok bs =>
        rw [hft] at h
        cases h
        simp [hpres a b hfa, ih hft]

theorem listIndex_ok_get :
    ∀ {l : List YM} {x : YM} {i : Nat}, listIndex l x = .ok i → l.get? i = some x := by
  intro l
  induction l with
  | nil => intro x i h; simp [listIndex] at h
  | cons a t ih =>
    intro x i h
    simp only [listIndex] at h
    by_cases hax : a = x
    · rw [if_pos hax] at h
      cases h
      simp [hax]
    · rw [if_neg hax] at h
      cases hrec : listIndex t x with
      | ok j => rw [hrec] at h; cases h; simpa using ih hrec
      | error e => rw [hrec] at h; cases h

theorem listIndex_mem_ok :
    ∀ {l : List YM} {x : YM}, x ∈ l → ∃ i, listIndex l x = .ok i := by
  intro l
  induction l with
  | nil => intro x h; cases h
  | cons a t ih =>
    intro x h
    by_cases hax : a = x
    · exact ⟨0, by simp [listIndex, hax]⟩
    · rcases ih (by rcases List.mem_cons.mp h with rfl | hm; exact absurd rfl hax; exact hm) with ⟨i, hi⟩
      exact ⟨i + 1, by simp [listIndex, hax, hi]⟩

theorem listIndex_not_mem :
    ∀ {l : List YM} {x : YM}, x ∉ l →
      listIndex l x = .error (.valueError (fmtYM x ++ " is not in list")) := by
  intro l
  induction l with
  | nil => intro x _; rfl
  | cons a t ih =>
    intro x h
    have hax : a ≠ x := fun he => h (he ▸ List.mem_cons_self a t)
    have hxt : x ∉ t := fun hm => h (List.mem_cons_of_mem a hm)
    simp [listIndex, hax, ih hxt]

theorem sum_map_add {κ : Type} (f g : κ → ℚ) :
    ∀ (l : List κ),
      (l.map (fun k => f k + g k)).sum = (l.map f).sum + (l.map g).sum := by
  intro l
  induction l with
  | nil => simp
  | cons k t ih => simp [ih]; ring

theorem sum_map_single {κ : Type} [DecidableEq κ] {c : κ} (x : ℚ) :
    ∀ {keys : List κ}, keys.Nodup → c ∈ keys →
      (keys.map (fun k => if c = k then x else 0)).sum = x := by
  intro keys
  induction keys with
  | nil => intro _ h; cases h
  | cons k t ih =>
    intro hnd hc
    simp only [List.map_cons, List.sum_cons]
    by_cases hkc : c = k
    · subst hkc
      rw [if_pos rfl]
      have hz : (t.map (fun a => if c = a then x else 0)).sum = 0 := by
        apply List.sum_eq_zero
        intro q hq
        rcases List.mem_map.mp hq with ⟨a, ha, rfl⟩
        have : c ≠ a := by
          intro he
          exact (List.nodup_cons.mp hnd).1 (he ▸ ha)
        simp [this]
      rw [hz]; ring
    · rw [if_neg hkc]
      have hct : c ∈ t := by
        rcases List.mem_cons.mp hc with h | h
        · exact absurd h hkc
        · exact h
      rw [ih (List.nodup_cons.mp hnd).2 hct]; ring

/-- Grouping loses no mass: summing a column groupwise over a complete,
duplicate-free key list equals summing it over all the rows. -/
theorem sum_groups {α κ : Type} [DecidableEq κ] (key : α → κ) (v : α → ℚ) :
    ∀ (l : List α) (keys : List κ), keys.Nodup → (∀ a ∈ l, key a ∈ keys) →
      (keys.map (fun k => ((l.filter (fun a => key a = k)).map v).sum)).sum
        = (l.map v).sum := by
  intro l
  induction l with
  | nil => intro keys _ _; simp
  | cons a t ih =>
    intro keys hnd hcov
    have hsplit : (keys.map (fun k => (((a :: t).filter (fun x => key x = k)).map v).sum))
        = keys.map (fun k => (if key a = k then v a else 0)
            + ((t.filter (fun x => key x = k)).map v).sum) := by
      apply List.map_congr_left
      intro k _
      by_cases h : key a = k
      · simp [List.filter_cons, h]
      · simp [List.filter_cons, h]
    rw [hsplit, sum_map_add,
      sum_map_single (v a) hnd (hcov a (List.mem_cons_self a t)),
      ih keys hnd (fun x hx => hcov x (List.mem_cons_of_mem a hx))]
    simp

/-! ## Evaluation of the fixtures -/

theorem evalFiltW : rangeFiltered attrW [(2024, 5), (2024, 6)] = attrW := by
  decide

theorem evalGroupW1 : groupOf attrW (aggKeyFn .source) "Google" = [sampleA1] := by
  decide

theorem evalGroupW2 : groupOf attrW (aggKeyFn .source) "Yelp" = [sampleA2] := by
  decide

theorem evalGW1 :
    mkGroupRow attrW (aggKeyFn .source) "May. 2024 - Jun. 2024" "Google" = .ok sampleG1 := by
  simp only [mkGroupRow, gRoiNum, gSum, evalGroupW1]
  norm_num [sumO, sampleA1, sampleG1, divQ, fillna0, roundP0, roundP2, roundQ, truncQ,
    pctStrE, intOfPVal, pmul]
  decide

theorem evalGW2 :
    mkGroupRow attrW (aggKeyFn .source) "May. 2024 - Jun. 2024" "Yelp" = .ok sampleG2 := by
  simp only [mkGroupRow, gRoiNum, gSum, evalGroupW2]
  norm_num [sumO, sampleA2, sampleG2, divQ, fillna0, roundP0, roundP2, roundQ, truncQ,
    pctStrE, intOfPVal, pmul]
  decide

theorem evalMonthW1 : monthOf attrW (2024, 5) = [sampleA1] := by decide

theorem evalMonthW2 : monthOf attrW (2024, 6) = [sampleA2] := by decide

theorem evalMOTWkeys : (ordersW.filterMap (fun r => r.yearMonth)).dedup = [(2024, 5)] := by
  decide

theorem evalMOTW : monthlyOrderTotals ordersW = [((2024, 5), 100)] := by
  simp only [monthlyOrderTotals, evalMOTWkeys]
  norm_num [ordersW, sampleO1, sumQ]

theorem evalMW1 : mkMonthlyRow attrW ordersW pricingW (2024, 5) = .ok sampleM1 := by
  simp only [mkMonthlyRow, mRoiNum, mSum, mOrderTotal, evalMonthW1, evalMOTW]
  norm_num [sumO, sampleA1, sampleM1, mPricing, pricingW, lookupYM, ordersW, sampleO1,
    divQ, fillna0, roundP0, roundP2, roundQ, truncQ, pctStrE, intOfPVal, pmul]
  decide

theorem evalMW2 : mkMonthlyRow attrW ordersW pricingW (2024, 6) = .ok sampleM2 := by
  simp only [mkMonthlyRow, mRoiNum, mSum, mOrderTotal, evalMonthW2, evalMOTW]
  norm_num [sumO, sampleA2, sampleM2, mPricing, pricingW, lookupYM, ordersW, sampleO1,
    divQ, fillna0, roundP0, roundP2, roundQ, truncQ, pctStrE, intOfPVal, pmul]
  decide

theorem evalSelW : selectedMonths attrW (2024, 5) (2024, 6) = .ok [(2024, 5), (2024, 6)] := by
  decide

theorem evalKeysW : (attrW.map (aggKeyFn .source)).dedup = ["Google", "Yelp"] := by decide

theorem evalMkeysW : (attrW.filterMap (fun r => r.yearMonth)).dedup = [(2024, 5), (2024, 6)] := by
  decide

theorem evalNEW : attrW.isEmpty = false := by decide

theorem evalOFiltW :
    ordersW.filter (fun r => inRange [(2024, 5), (2024, 6)] r.yearMonth) = ordersW := by
  decide

theorem evalPeriodW : periodLabel (2024, 5) (2024, 6) = "May. 2024 - Jun. 2024" := by
  decide

theorem ymM1 : sampleM1.yearMonth = (2024, 5) := rfl

theorem ymM2 : sampleM2.yearMonth = (2024, 6) := rfl

theorem evalSortW :
    List.insertionSort (fun a b => ymRel a.yearMonth b.yearMonth) [sampleM1, sampleM2]
      = [sampleM1, sampleM2] := by
  simp [List.insertionSort, List.orderedInsert, ymM1, ymM2, ymRel, ymLE]

theorem keyA1 : aggKeyFn AggType.source sampleA1 = "Google" := rfl

theorem keyA2 : aggKeyFn AggType.source sampleA2 = "Yelp" := rfl

theorem evalPrepW : prepareData attrW ordersW pricingW (2024, 5) (2024, 6) .source =
    .ok ([sampleG1, sampleG2], [sampleM1, sampleM2], [((2024, 5), 100)]) := by
  simp only [prepareData, evalNEW, Bool.false_eq_true, if_false, evalSelW, prepareCore,
    evalFiltW, evalKeysW, evalMkeysW, evalPeriodW, keyA1, keyA2, mapE, evalGW1, evalGW2,
    evalMW1, evalMW2, evalSortW, evalOFiltW, evalMOTW]

theorem evalSelZ : selectedMonths attrZ (2024, 5) (2024, 5) = .ok [(2024, 5)] := by decide

theorem evalNEZ : attrZ.isEmpty = false := by decide

theorem evalFiltZ : rangeFiltered attrZ [(2024, 5)] = [sampleZ1] := by
  decide

theorem evalGroupZ : groupOf [sampleZ1] (aggKeyFn .source) "A" = [sampleZ1] := by decide

theorem evalGZ : mkGroupRow [sampleZ1] (aggKeyFn .source) "May. 2024" "A" = .ok sampleGZ := by
  simp only [mkGroupRow, gRoiNum, gSum, evalGroupZ]
  norm_num [sumO, sampleZ1, sampleGZ, divQ, fillna0, roundP0, roundP2, roundQ, truncQ,
    pctStrE, intOfPVal, pmul]
  decide

theorem evalMonthZ : monthOf [sampleZ1] (2024, 5) = [sampleZ1] := by decide

theorem evalMZ : mkMonthlyRow [sampleZ1] [] [] (2024, 5) = .ok sampleMZ := by
  simp only [mkMonthlyRow, mRoiNum, mSum, mOrderTotal, evalMonthZ]
  norm_num [sumO, sampleZ1, sampleMZ, mPricing, lookupYM, monthlyOrderTotals,
    divQ, fillna0, roundP0, roundP2, roundQ, truncQ, pctStrE, intOfPVal, pmul]
  decide

theorem evalPeriodZ : periodLabel (2024, 5) (2024, 5) = "May. 2024" := by decide

theorem keyZ1 : aggKeyFn AggType.source sampleZ1 = "A" := rfl

theorem evalSortZ :
    List.insertionSort (fun a b => ymRel a.yearMonth b.yearMonth) [sampleMZ] = [sampleMZ] := by
  simp [List.insertionSort, List.orderedInsert]

theorem evalPrepZ : prepareData attrZ [] [] (2024, 5) (2024, 5) .source =
    .ok ([sampleGZ], [sampleMZ], []) := by
  simp only [prepareData, evalNEZ, Bool.false_eq_true, if_false, evalSelZ, prepareCore,
    evalFiltZ, evalPeriodZ, keyZ1, mapE, evalGZ, evalMZ, evalSortZ, List.filter_nil,
    monthlyOrderTotals, List.filterMap_nil, List.dedup_nil, List.map_nil]

theorem evalAllMP : allMonthsPy attrP = [some (2024, 5), none, some (2024, 1)] := by decide

theorem evalSelP : selectedMonthsPy attrP (2024, 5) (2024, 1)
    = .ok [some (2024, 5), none, some (2024, 1)] := by decide

theorem evalNEP : attrP.isEmpty = false := by decide

theorem evalFiltP : rangeFilteredPy attrP [some (2024, 5), none, some (2024, 1)] = attrP := by
  decide

theorem evalGroupP1 : groupOf attrP (aggKeyFn .source) "A" = [samplePMay] := by decide

theorem evalGroupP2 : groupOf attrP (aggKeyFn .source) "B" = [samplePBad] := by decide

theorem evalGroupP3 : groupOf attrP (aggKeyFn .source) "C" = [samplePJan] := by decide

theorem evalGP1 : mkGroupRow attrP (aggKeyFn .source) "May. 2024 - Jan. 2024" "A"
    = .ok sampleP1 := by
  simp only [mkGroupRow, gRoiNum, gSum, evalGroupP1]
  norm_num [sumO, samplePMay, sampleP1, divQ, fillna0, roundP0, roundP2, roundQ, truncQ,
    pctStrE, intOfPVal, pmul]
  decide

theorem evalGP2 : mkGroupRow attrP (aggKeyFn .source) "May. 2024 - Jan. 2024" "B"
    = .ok sampleP2 := by
  simp only [mkGroupRow, gRoiNum, gSum, evalGroupP2]
  norm_num [sumO, samplePBad, sampleP2, divQ, fillna0, roundP0, roundP2, roundQ, truncQ,
    pctStrE, intOfPVal, pmul]
  decide

theorem evalGP3 : mkGroupRow attrP (aggKeyFn .source) "May. 2024 - Jan. 2024" "C"
    = .ok sampleP3 := by
  simp only [mkGroupRow, gRoiNum, gSum, evalGroupP3]
  norm_num [sumO, samplePJan, sampleP3, divQ, fillna0, roundP0, roundP2, roundQ, truncQ,
    pctStrE, intOfPVal, pmul]
  decide

theorem evalMonthP5 : monthOf attrP (2024, 5) = [samplePMay] := by decide

theorem evalMonthP1 : monthOf attrP (2024, 1) = [samplePJan] := by decide

theorem evalMP5 : mkMonthlyRow attrP [] [] (2024, 5) = .ok samplePM5 := by
  simp only [mkMonthlyRow, mRoiNum, mSum, mOrderTotal, evalMonthP5]
  norm_num [sumO, samplePMay, samplePM5, mPricing, lookupYM, monthlyOrderTotals,
    divQ, fillna0, roundP0, roundP2, roundQ, truncQ, pctStrE, intOfPVal, pmul]
  decide

theorem evalMP1 : mkMonthlyRow attrP [] [] (2024, 1) = .ok samplePM1 := by
  simp only [mkMonthlyRow, mRoiNum, mSum, mOrderTotal, evalMonthP1]
  norm_num [sumO, samplePJan, samplePM1, mPricing, lookupYM, monthlyOrderTotals,
    divQ, fillna0, roundP0, roundP2, roundQ, truncQ, pctStrE, intOfPVal, pmul]
  decide

theorem evalPeriodP : periodLabel (2024, 5) (2024, 1) = "May. 2024 - Jan. 2024" := by decide

theorem keyP1 : aggKeyFn AggType.source samplePMay = "A" := rfl

theorem keyP2 : aggKeyFn AggType.source samplePBad = "B" := rfl

theorem keyP3 : aggKeyFn AggType.source samplePJan = "C" := rfl

theorem evalKeysP : (attrP.map (aggKeyFn .source)).dedup = ["A", "B", "C"] := by decide

theorem evalMkeysP : (attrP.filterMap (fun r => r.yearMonth)).dedup
    = [(2024, 5), (2024, 1)] := by decide

theorem evalSortP :
    List.insertionSort (fun a b => ymRel a.yearMonth b.yearMonth) [samplePM5, samplePM1]
      = [samplePM1, samplePM5] := by decide

theorem evalPrepP : prepareDataPy attrP [] [] (2024, 5) (2024, 1) .source =
    .ok ([sampleP1, sampleP2, sampleP3], [samplePM1, samplePM5], []) := by
  simp only [prepareDataPy, evalNEP, Bool.false_eq_true, if_false, evalSelP, prepareCorePy,
    evalFiltP, evalPeriodP, keyP1, keyP2, keyP3, evalKeysP, evalMkeysP, mapE,
    evalGP1, evalGP2, evalGP3, evalMP5, evalMP1, evalSortP, List.filter_nil,
    monthlyOrderTotals, List.filterMap_nil, List.dedup_nil, List.map_nil]

/-! ## Structural lemmas about the aggregation engine -/

theorem listIndex_error_eq :
    ∀ {l : List YM} {x : YM} {er : PyErr}, listIndex l x = .error er →
      er = .valueError (fmtYM x ++ " is not in list") := by
  intro l
  induction l with
  | nil =>
    intro x er h
    simp only [listIndex] at h
    cases h
    rfl
  | cons a t ih =>
    intro x er h
    simp only [listIndex] at h
    by_cases hax : a = x
    · rw [if_pos hax] at h; cases h
    · rw [if_neg hax] at h
      cases hrec : listIndex t x with
      | ok j => rw [hrec] at h; cases h
      | error e2 => rw [hrec] at h; cases h; exact ih hrec

theorem mkGroupRow_ok {filtered : List AttrRow} {key : AttrRow → String}
    {period k : String} {row : GroupRow}
    (h : mkGroupRow filtered key period k = .ok row) :
    row.inquiries = gSum filtered key k (fun r => r.inquiries)
    ∧ row.totalJobAmount = gSum filtered key k (fun r => r.totalJobAmount)
    ∧ row.campaignCost = gSum filtered key k (fun r => r.campaignCost)
    ∧ row.roiNumeric = gRoiNum filtered key k
    ∧ pctStrE (gRoiNum filtered key k) = .ok row.roi := by
  unfold mkGroupRow at h
  cases hp : pctStrE (gRoiNum filtered key k) with
  | error e => rw [hp] at h; cases h
  | ok s =>
    rw [hp] at h
    cases h
    exact ⟨rfl, rfl, rfl, rfl, by simp [hp]⟩

theorem mkMonthlyRow_ok {filtered : List AttrRow} {ords : List OrderRow}
    {pricing : List (YM × Nat)} {m : YM} {row : MonthlyRow}
    (h : mkMonthlyRow filtered ords pricing m = .ok row) :
    row.yearMonth = m
    ∧ row.inquiries = mSum filtered m (fun r => r.inquiries) := by
  unfold mkMonthlyRow at h
  cases hp : pctStrE (mRoiNum filtered m) with
  | error e => rw [hp] at h; cases h
  | ok s =>
    rw [hp] at h
    cases h
    exact ⟨rfl, rfl⟩

/-- Successful prepare_data results decompose into the empty short-circuit
or the three rollups of prepareCore. -/
theorem prepareData_ok {attr : List AttrRow} {ords : List OrderRow}
    {pricing : List (YM × Nat)} {s e : YM} {t : AggType}
    {g : List GroupRow} {mo : List MonthlyRow} {rv : List (YM × ℚ)}
    (h : prepareData attr ords pricing s e t = .ok (g, mo, rv)) :
    (g = [] ∧ mo = [] ∧ rv = [] ∧ attr = [])
    ∨ ∃ sel monthlyBase,
        selectedMonths attr s e = .ok sel
        ∧ mapE (mkGroupRow (rangeFiltered attr sel) (aggKeyFn t) (periodLabel s e))
            (((rangeFiltered attr sel).map (aggKeyFn t)).dedup) = .ok g
        ∧ mapE (mkMonthlyRow (rangeFiltered attr sel) ords pricing)
            (((rangeFiltered attr sel).filterMap (fun r => r.yearMonth)).dedup)
            = .ok monthlyBase
        ∧ mo = List.insertionSort (fun a b => ymRel a.yearMonth b.yearMonth) monthlyBase
        ∧ rv = monthlyOrderTotals (ords.filter (fun r => inRange sel r.yearMonth)) := by
  unfold prepareData at h
  split at h
  · cases h
    next hemp => exact Or.inl ⟨rfl, rfl, rfl, List.isEmpty_iff.mp hemp⟩
  · next hemp =>
    cases hsel : selectedMonths attr s e with
    | error er => rw [hsel] at h; cases h
    | ok sel =>
      rw [hsel] at h
      simp only [] at h
      unfold prepareCore at h
      split at h
      · cases h
      · next aggRows hg =>
        split at h
        · cases h
        · next monthlyBase hm =>
          cases h
          exact Or.inr ⟨sel, monthlyBase, rfl, hg, hm, rfl, rfl⟩

/-! ## Lemmas about the notification deduplicator -/

theorem dedupByKey_subset :
    ∀ (l : List NotifRow) (seen : List (String × Option YM)) (r : NotifRow),
      r ∈ dedupByKey l seen → r ∈ l := by
  intro l
  induction l with
  | nil => intro seen r h; cases h
  | cons a t ih =>
    intro seen r h
    simp only [dedupByKey] at h
    by_cases hk : notifKey a ∈ seen
    · rw [if_pos hk] at h
      exact List.mem_cons_of_mem a (ih _ r h)
    · rw [if_neg hk] at h
      rcases List.mem_cons.mp h with rfl | hm
      · exact List.mem_cons_self _ _
      · exact List.mem_cons_of_mem a (ih _ r hm)

theorem dedupByKey_not_seen :
    ∀ (l : List NotifRow) (seen : List (String × Option YM)) (r : NotifRow),
      r ∈ dedupByKey l seen → notifKey r ∉ seen := by
  intro l
  induction l with
  | nil => intro seen r h; cases h
  | cons a t ih =>
    intro seen r h
    simp only [dedupByKey] at h
    by_cases hk : notifKey a ∈ seen
    · rw [if_pos hk] at h
      exact ih _ r h
    · rw [if_neg hk] at h
      rcases List.mem_cons.mp h with rfl | hm
      · exact hk
      · intro hin
        exact ih _ r hm (List.mem_cons_of_mem _ hin)

theorem dedupByKey_pairwise :
    ∀ (l : List NotifRow) (seen : List (String × Option YM)),
      (dedupByKey l seen).Pairwise (fun a b => notifKey a ≠ notifKey b) := by
  intro l
  induction l with
  | nil => intro seen; exact List.Pairwise.nil
  | cons a t ih =>
    intro seen
    simp only [dedupByKey]
    by_cases hk : notifKey a ∈ seen
    · rw [if_pos hk]; exact ih _
    · rw [if_neg hk]
      refine List.Pairwise.cons ?_ (ih _)
      intro b hb hab
      have hns := dedupByKey_not_seen t _ b hb
      rw [← hab] at hns
      exact hns (List.mem_cons_self _ _)

theorem dedupByKey_filter :
    ∀ (l : List NotifRow) (seen : List (String × Option YM)) (k : String × Option YM),
      k ∉ seen →
      (dedupByKey l seen).filter (fun r => notifKey r = k)
        = (l.filter (fun r => notifKey r = k)).take 1 := by
  intro l
  induction l with
  | nil => intro seen k _; rfl
  | cons a t ih =>
    intro seen k hk
    simp only [dedupByKey]
    by_cases hak : notifKey a = k
    · subst hak
      rw [if_neg hk]
      have hnil : (dedupByKey t (notifKey a :: seen)).filter
          (fun r => notifKey r = notifKey a) = [] := by
        apply List.filter_eq_nil_iff.mpr
        intro b hb
        simp only [decide_eq_true_eq]
        intro hbk
        exact dedupByKey_not_seen t _ b hb (by rw [hbk]; exact List.mem_cons_self _ _)
      simp [List.filter_cons, hnil]
    · by_cases hseen : notifKey a ∈ seen
      · rw [if_pos hseen]
        rw [ih seen k hk]
        simp [List.filter_cons, hak]
      · rw [if_neg hseen]
        have hk2 : k ∉ notifKey a :: seen := by
          intro hin
          rcases List.mem_cons.mp hin with h2 | h2
          · exact hak h2.symm
          · exact hk h2
        rw [List.filter_cons, List.filter_cons]
        simp [hak, ih _ k hk2]

/-! ## Further helpers -/

theorem inRange_nil {ym : Option YM} : inRange [] ym = false := by
  cases ym <;> rfl

/-- An empty month slice yields three empty tables. -/
theorem prepareCore_nil (attr : List AttrRow) (ords : List OrderRow)
    (pricing : List (YM × Nat)) (s e : YM) (t : AggType) :
    prepareCore attr ords pricing [] s e t = .ok ([], [], []) := by
  have hf : rangeFiltered attr [] = [] := by
    apply List.filter_eq_nil_iff.mpr
    intro a _
    simp [inRange_nil]
  have ho : ords.filter (fun r => inRange [] r.yearMonth) = [] := by
    apply List.filter_eq_nil_iff.mpr
    intro a _
    simp [inRange_nil]
  simp [prepareCore, hf, ho, mapE, monthlyOrderTotals, List.insertionSort]

theorem evalOrdersGood : ordersData [rawGoodOrder] = [sampleO1] := by
  norm_num [ordersData, mkOrderRow, rawGoodOrder, sampleO1, Cell.toNum?, DateCell.toDate?,
    ymOf, roundQ, List.filter]

/-! ## Claims -/

theorem evalGroupD : groupOf [sampleD] (aggKeyFn .source) "Ads" = [sampleD] := by decide

theorem evalMonthD : monthOf [sampleD] (2024, 5) = [sampleD] := by decide

/-- C1: the spec requires every derived ratio with a zero denominator to
be 0 (never infinity, NaN or an exception) at row, grouped and monthly
level.  The row-level derivation (data.py lines 50-52) replaces the
infinities and fills NaN, so it does yield 0; but the grouped and
monthly derivations (app.py lines 61 and 78) only fill NaN, so a zero
denominator with a nonzero numerator yields infinity.  At a group whose
inquiries sum to 0 while its campaign cost sums to 100, cost per lead
comes out as positive infinity, not 0. -/
theorem c1_div_zero_ratio_infinite :
    (mkAttrRow rawD).costPerLead = PVal.val 0
    ∧ (mkGroupRow [sampleD] (aggKeyFn .source) "May. 2024" "Ads").map (fun g => g.costPerLead)
        = .ok PVal.inf
    ∧ (mkMonthlyRow [sampleD] [] [] (2024, 5)).map (fun r => r.costPerLead) = .ok PVal.inf := by
  refine ⟨?_, ?_, ?_⟩
  · norm_num [mkAttrRow, rawD, attrNum, Cell.toNum?, divO, divQ, replaceInf0, fillna0,
      roundP0, roundQ]
  · simp only [mkGroupRow, gRoiNum, gSum, evalGroupD]
    norm_num [sumO, sampleD, divQ, fillna0, roundP0, roundP2, roundQ, truncQ, pctStrE,
      intOfPVal, pmul, Except.map]
  · simp only [mkMonthlyRow, mRoiNum, mSum, mOrderTotal, evalMonthD]
    norm_num [sumO, sampleD, mPricing, lookupYM, monthlyOrderTotals, divQ, fillna0, roundP0,
      roundP2, roundQ, truncQ, pctStrE, intOfPVal, pmul, Except.map]

/-- C2: after deduplication only allowed event types remain, at most one
row survives per (customer, month) pair and it is the first such row of
the original order among rows with an allowed event type, and
MonthlyPricingSent counts the deduplicated rows of each month. -/
theorem c2_notification_dedup (raws : List RawNotifRow) (r : NotifRow)
    (m mr : YM) (n : Nat) (c : String) (ym : Option YM)
    (hr : r ∈ notificationsDeduped raws)
    (hmn : (m, n) ∈ pricingSentData raws)
    (hrm : r.yearMonth = some mr) :
    r.eventType ∈ allowedEvents
    ∧ (notificationsDeduped raws).Pairwise (fun a b => notifKey a ≠ notifKey b)
    ∧ (notificationsDeduped raws).filter (fun x => notifKey x = (c, ym))
        = (((raws.map mkNotifRow).filter (fun x => x.eventType ∈ allowedEvents)).filter
            (fun x => notifKey x = (c, ym))).take 1
    ∧ n = ((notificationsDeduped raws).filter (fun x => x.yearMonth = some m)).length
    ∧ (mr, ((notificationsDeduped raws).filter (fun x => x.yearMonth = some mr)).length)
        ∈ pricingSentData raws := by
  refine ⟨?_, ?_, ?_, ?_, ?_⟩
  · have hsub := dedupByKey_subset _ [] r hr
    have := List.mem_filter.mp hsub
    simpa using this.2
  · exact dedupByKey_pairwise _ []
  · exact dedupByKey_filter _ [] (c, ym) (by simp)
  · unfold pricingSentData at hmn
    rcases List.mem_map.mp hmn with ⟨m2, _, heq⟩
    cases heq
    rfl
  · unfold pricingSentData
    apply List.mem_map.mpr
    refine ⟨mr, ?_, rfl⟩
    apply List.mem_dedup.mpr
    exact List.mem_filterMap.mpr ⟨r, hr, hrm⟩

/-- Witness for C2 on the notification fixture: the deduplicated set
keeps alice's first May send, drops her duplicate, drops bob's
non-allowed event, and counts one pricing-sent credit for May. -/
theorem c2_notification_dedup_witness :
    ({ datetimeSent := some ⟨2024, 5, 3⟩, yearMonth := some (2024, 5), customerId := "alice",
       eventType := "send_dashboard" } : NotifRow).eventType ∈ allowedEvents
    ∧ (notificationsDeduped notifW).Pairwise (fun a b => notifKey a ≠ notifKey b)
    ∧ (notificationsDeduped notifW).filter (fun x => notifKey x = ("alice", some (2024, 5)))
        = (((notifW.map mkNotifRow).filter (fun x => x.eventType ∈ allowedEvents)).filter
            (fun x => notifKey x = ("alice", some (2024, 5)))).take 1
    ∧ 1 = ((notificationsDeduped notifW).filter (fun x => x.yearMonth = some (2024, 5))).length
    ∧ ((2024, 5), ((notificationsDeduped notifW).filter
          (fun x => x.yearMonth = some (2024, 5))).length) ∈ pricingSentData notifW := by
  exact c2_notification_dedup notifW _ (2024, 5) (2024, 5) 1 "alice" (some (2024, 5))
    (by decide) (by decide) (by decide)

/-- C3 counterexample: on a two-month attribution table queried for May
only, the monthly rollup contains only May, while the full table has two
distinct labels — the monthly rollup is range-filtered, not computed
from the full table. -/
theorem c3_full_table_counterexample :
    (prepareData attrZ [] [] (2024, 5) (2024, 5) .source).map
        (fun out => out.2.1.map (fun row => row.yearMonth)) = .ok [(2024, 5)]
    ∧ (attrZ.filterMap (fun r => r.yearMonth)).dedup = [(2024, 5), (2024, 6)] := by
  constructor
  · rw [evalPrepZ]; rfl
  · decide

/-- C3 amended: the monthly rollup is computed from the range-filtered
attribution table — its set of year_month rows equals the distinct
labels of the filtered table, and each monthly row's sums cover the
filtered rows of that month. -/
theorem c3_monthly_rollup_range_restricted (attr : List AttrRow) (ords : List OrderRow)
    (pricing : List (YM × Nat)) (s e : YM) (t : AggType) (sel : List YM)
    (g : List GroupRow) (mo : List MonthlyRow) (rv : List (YM × ℚ))
    (hsel : selectedMonths attr s e = .ok sel)
    (hok : prepareData attr ords pricing s e t = .ok (g, mo, rv)) :
    (mo.map (fun row => row.yearMonth)).Perm
        (((rangeFiltered attr sel).filterMap (fun r => r.yearMonth)).dedup)
    ∧ ∀ row ∈ mo,
        row.inquiries = mSum (rangeFiltered attr sel) row.yearMonth (fun r => r.inquiries) := by
  rcases prepareData_ok hok with ⟨hge, hmo, hrv, hattr⟩ | ⟨sel2, mbase, hsel2, hg, hm, hmo, hrv⟩
  · subst hattr
    subst hmo
    constructor
    · simp [rangeFiltered]
    · intro row hrow
      simp at hrow
  · rw [hsel] at hsel2
    injection hsel2 with h2
    subst h2
    subst hmo
    have hperm := List.perm_insertionSort (fun a b => ymRel a.yearMonth b.yearMonth) mbase
    have hmap : mbase.map (fun row => row.yearMonth)
        = (((rangeFiltered attr sel).filterMap (fun r => r.yearMonth)).dedup).map (fun m => m) :=
      mapE_ok_map (fun m row h => (mkMonthlyRow_ok h).1) hm
    simp only [List.map_id'] at hmap
    constructor
    · exact hmap ▸ (hperm.map (fun row => row.yearMonth))
    · intro row hrow
      have hrow2 : row ∈ mbase := hperm.mem_iff.mp hrow
      rcases mapE_ok_mem hm row hrow2 with ⟨m2, _, hok2⟩
      rcases mkMonthlyRow_ok hok2 with ⟨hym, hinq⟩
      rw [hinq, hym]

/-- Witness for the amended C3 on the all-zero May-only query. -/
theorem c3_monthly_rollup_range_restricted_witness :
    (([sampleMZ] : List MonthlyRow).map (fun row => row.yearMonth)).Perm
        (((rangeFiltered attrZ [(2024, 5)]).filterMap (fun r => r.yearMonth)).dedup)
    ∧ sampleMZ.inquiries
        = mSum (rangeFiltered attrZ [(2024, 5)]) sampleMZ.yearMonth (fun r => r.inquiries) := by
  have h := c3_monthly_rollup_range_restricted attrZ [] [] (2024, 5) (2024, 5) .source
    [(2024, 5)] [sampleGZ] [sampleMZ] [] evalSelZ evalPrepZ
  exact ⟨h.1, h.2 sampleMZ (List.mem_cons_self _ _)⟩

/-- C4 counterexample: with July 2024 absent from the data, the query
boundary does not report an OutOfRange condition — it raises the bare
ValueError of the Python list.index lookup, which no caller in app.py
handles. -/
theorem c4_out_of_range_counterexample :
    prepareData attrW ordersW pricingW (2024, 7) (2024, 5) .source
      = .error (.valueError "Jul. 2024 is not in list") := by
  decide

/-- C4 amended: when either endpoint is not among the available labels
the query boundary fails by raising the generic ValueError of list.index
(an unhandled exception, not a reported OutOfRange condition); it
returns no tables, which is distinct from the empty-but-valid result. -/
theorem c4_missing_endpoint_value_error (attr : List AttrRow) (ords : List OrderRow)
    (pricing : List (YM × Nat)) (s e : YM) (t : AggType)
    (hmiss : s ∉ allMonthsOf attr ∨ e ∉ allMonthsOf attr)
    (hne : attr.isEmpty = false) :
    isValueError (prepareData attr ords pricing s e t) = true := by
  have hsel : ∃ msg, selectedMonths attr s e = .error (.valueError msg) := by
    simp only [selectedMonths]
    rcases hmiss with hs | he
    · rw [listIndex_not_mem hs]
      exact ⟨_, rfl⟩
    · cases hidx : listIndex (allMonthsOf attr) s with
      | error er =>
        rw [listIndex_error_eq hidx]
        exact ⟨_, rfl⟩
      | ok i =>
        rw [listIndex_not_mem he]
        exact ⟨_, rfl⟩
  rcases hsel with ⟨msg, hmsg⟩
  unfold prepareData
  rw [hne]
  simp only [Bool.false_eq_true, if_false, hmsg]
  rfl

/-- Witness for the amended C4: a query for the absent July 2024. -/
theorem c4_missing_endpoint_value_error_witness :
    isValueError (prepareData attrW ordersW pricingW (2024, 7) (2024, 5) .source) = true :=
  c4_missing_endpoint_value_error attrW ordersW pricingW (2024, 7) (2024, 5) .source
    (Or.inl (by decide)) (by decide)

/-- C5 counterexample: a non-numeric Inquiries cell in an attribution
row stays NaN (null) in the normalized table — it is not coerced to 0 as
the claim states. -/
theorem c5_coercion_counterexample :
    (attributionData [rawBadNum]).map (fun r => r.inquiries) = [none]
    ∧ (attributionData [rawBadNum]).map (fun r => r.inquiries) ≠ [some 0] := by
  constructor <;> decide

/-- C5 amended: non-numeric or missing values in the designated numeric
columns coerce to 0 only in the orders table; in the attribution table
they stay NaN (null), which downstream NaN-skipping sums treat as 0. -/
theorem c5_numeric_coercion (ra : RawAttrRow) (ro : RawOrderRow)
    (h1 : ra.inquiries.toNum? = none) (h2 : ra.pricingSent.toNum? = none)
    (h3 : ra.orders.toNum? = none) (h4 : ra.paidOrders.toNum? = none)
    (h5 : ra.totalJobAmount.toNum? = none) (h6 : ra.campaignCost.toNum? = none)
    (h7 : ra.costPerClosedSale.toNum? = none)
    (h8 : ro.servicesPrice.toNum? = none) (h9 : ro.discountAmount.toNum? = none) :
    (mkAttrRow ra).inquiries = none
    ∧ (mkAttrRow ra).pricingSent = none
    ∧ (mkAttrRow ra).orders = none
    ∧ (mkAttrRow ra).paidOrders = none
    ∧ (mkAttrRow ra).totalJobAmount = none
    ∧ (mkAttrRow ra).campaignCost = none
    ∧ (mkAttrRow ra).costPerClosedSale = none
    ∧ (mkOrderRow ro).servicesPrice = 0
    ∧ (mkOrderRow ro).discountAmount = 0
    ∧ (mkOrderRow ro).orderTotal = 0 := by
  refine ⟨?_, ?_, ?_, ?_, ?_, ?_, ?_, ?_, ?_, ?_⟩ <;>
    norm_num [mkAttrRow, mkOrderRow, attrNum, h1, h2, h3, h4, h5, h6, h7, h8, h9, roundQ]

/-- Witness for the amended C5 on rows whose numeric cells are text. -/
theorem c5_numeric_coercion_witness :
    (mkAttrRow rawBadNum).inquiries = none
    ∧ (mkAttrRow rawBadNum).pricingSent = none
    ∧ (mkAttrRow rawBadNum).orders = none
    ∧ (mkAttrRow rawBadNum).paidOrders = none
    ∧ (mkAttrRow rawBadNum).totalJobAmount = none
    ∧ (mkAttrRow rawBadNum).campaignCost = none
    ∧ (mkAttrRow rawBadNum).costPerClosedSale = none
    ∧ (mkOrderRow rawBadNumOrder).servicesPrice = 0
    ∧ (mkOrderRow rawBadNumOrder).discountAmount = 0
    ∧ (mkOrderRow rawBadNumOrder).orderTotal = 0 :=
  c5_numeric_coercion rawBadNum rawBadNumOrder rfl rfl rfl rfl rfl rfl rfl rfl rfl

/-- C6 counterexample: an order row with an unparseable timeslot and a
valid status is dropped from the active order set (the NaN year fails
the 2020 filter), contradicting the claim that it still appears. -/
theorem c6_unparseable_order_counterexample :
    ordersData [rawBadDateOrder] = [] ∧ rawBadDateOrder.status ≠ "CANCELLED" := by
  constructor <;> decide

/-- C6 amended: attribution and notification rows with unparseable dates
are retained with a null date and null label (and thus excluded from
date-keyed grouping) without an exception; order rows with an
unparseable timeslot are dropped from the active order set by the
year-2020 filter, so every active order has a parsed date. -/
theorem c6_unparseable_dates (ras : List RawAttrRow) (ra : RawAttrRow)
    (rn : RawNotifRow) (ros : List RawOrderRow) (r : OrderRow)
    (ha : ra.timePeriod.toDate? = none) (hn : rn.datetimeSent.toDate? = none)
    (hr : r ∈ ordersData ros) :
    (attributionData ras).length = ras.length
    ∧ (mkAttrRow ra).timePeriod = none
    ∧ (mkAttrRow ra).yearMonth = none
    ∧ (mkNotifRow rn).yearMonth = none
    ∧ r.timeslot ≠ none := by
  refine ⟨?_, ?_, ?_, ?_, ?_⟩
  · simp [attributionData]
  · simp [mkAttrRow, ha]
  · simp [mkAttrRow, ha]
  · simp [mkNotifRow, hn]
  · have h2 := (List.mem_filter.mp hr).2
    cases hts : r.timeslot with
    | none => rw [hts] at h2; simp at h2
    | some d => simp [hts]

/-- Witness for the amended C6. -/
theorem c6_unparseable_dates_witness :
    (attributionData [rawBadDateAttr]).length = [rawBadDateAttr].length
    ∧ (mkAttrRow rawBadDateAttr).timePeriod = none
    ∧ (mkAttrRow rawBadDateAttr).yearMonth = none
    ∧ (mkNotifRow rawBadDateNotif).yearMonth = none
    ∧ sampleO1.timeslot ≠ none :=
  c6_unparseable_dates [rawBadDateAttr] rawBadDateAttr rawBadDateNotif [rawGoodOrder]
    sampleO1 rfl rfl (by rw [evalOrdersGood]; exact List.mem_cons_self _ _)

/-- C7: the grouped rollup loses no inquiries — summing the inquiries
column over all group rows equals the NaN-skipping sum of inquiries over
the range-filtered attribution rows, for either grouping key. -/
theorem c7_sum_invariant (attr : List AttrRow) (ords : List OrderRow)
    (pricing : List (YM × Nat)) (s e : YM) (t : AggType) (sel : List YM)
    (g : List GroupRow) (mo : List MonthlyRow) (rv : List (YM × ℚ))
    (hsel : selectedMonths attr s e = .ok sel)
    (hok : prepareData attr ords pricing s e t = .ok (g, mo, rv)) :
    (g.map (fun row => row.inquiries)).sum
      = sumO (rangeFiltered attr sel) (fun r => r.inquiries) := by
  rcases prepareData_ok hok with ⟨hge, hmo, hrv, hattr⟩ | ⟨sel2, mbase, hsel2, hg, hm, hmo, hrv⟩
  · subst hattr
    subst hge
    simp [rangeFiltered, sumO]
  · rw [hsel] at hsel2
    injection hsel2 with h2
    subst h2
    have hmap : g.map (fun row => row.inquiries)
        = (((rangeFiltered attr sel).map (aggKeyFn t)).dedup).map
            (fun k => gSum (rangeFiltered attr sel) (aggKeyFn t) k (fun r => r.inquiries)) :=
      mapE_ok_map (fun k row h => (mkGroupRow_ok h).1) hg
    rw [hmap]
    have hsum := sum_groups (aggKeyFn t) (fun r => (r.inquiries).getD 0)
      (rangeFiltered attr sel) (((rangeFiltered attr sel).map (aggKeyFn t)).dedup)
      (List.nodup_dedup _)
      (fun a ha => List.mem_dedup.mpr (List.mem_map_of_mem _ ha))
    simpa [gSum, groupOf, sumO] using hsum

/-- Witness for C7 on the two-month fixture and source grouping. -/
theorem c7_sum_invariant_witness :
    (([sampleG1, sampleG2] : List GroupRow).map (fun row => row.inquiries)).sum
      = sumO (rangeFiltered attrW [(2024, 5), (2024, 6)]) (fun r => r.inquiries) :=
  c7_sum_invariant attrW ordersW pricingW (2024, 5) (2024, 6) .source
    [(2024, 5), (2024, 6)] [sampleG1, sampleG2] [sampleM1, sampleM2] [((2024, 5), 100)]
    evalSelW evalPrepW

/-- C8: the monthly rollup returned by the query boundary is sorted
chronologically — its label sequence is non-decreasing in the
parse-back-to-date order.  (All labels in the rollup are produced by
strftime from parsed dates, so the parse-back never fails.) -/
theorem c8_monthly_sorted (attr : List AttrRow) (ords : List OrderRow)
    (pricing : List (YM × Nat)) (s e : YM) (t : AggType)
    (g : List GroupRow) (mo : List MonthlyRow) (rv : List (YM × ℚ))
    (hok : prepareData attr ords pricing s e t = .ok (g, mo, rv)) :
    List.Pairwise ymRel (mo.map (fun row => row.yearMonth)) := by
  rcases prepareData_ok hok with ⟨hge, hmo, hrv, hattr⟩ | ⟨sel, mbase, hsel, hg, hm, hmo, hrv⟩
  · subst hmo
    simp
  · subst hmo
    have hs := sorted_insertionSort_of (fun a b => ymRel a.yearMonth b.yearMonth)
      (fun a b => ymRel_total _ _) (fun a b c => ymRel_trans _ _ _) mbase
    exact List.pairwise_map.mpr hs

/-- Witness for C8 on the two-month fixture. -/
theorem c8_monthly_sorted_witness :
    List.Pairwise ymRel (([sampleM1, sampleM2] : List MonthlyRow).map (fun row => row.yearMonth)) :=
  c8_monthly_sorted attrW ordersW pricingW (2024, 5) (2024, 6) .source
    [sampleG1, sampleG2] [sampleM1, sampleM2] [((2024, 5), 100)] evalPrepW

/-- C10 counterexample: on a table containing a row whose attribution
date failed to parse, the label list keeps its null label and every
comparison against the null's NaT sort key is False, so the sorted list
stays mis-ordered — May 2024, then the null label, then January 2024.
Querying start May 2024 and end January 2024, a chronologically reversed
range whose endpoints are both present, then selects the whole list and
returns a grouped rollup of three rows and a monthly rollup of two rows
instead of three empty tables. -/
theorem c10_reversed_range_counterexample :
    ymLT (2024, 1) (2024, 5) = true
    ∧ allMonthsPy attrP = [some (2024, 5), none, some (2024, 1)]
    ∧ prepareDataPy attrP [] [] (2024, 5) (2024, 1) AggType.source
        = .ok ([sampleP1, sampleP2, sampleP3], [samplePM1, samplePM5], [])
    ∧ ([sampleP1, sampleP2, sampleP3] : List GroupRow) ≠ [] :=
  ⟨by decide, evalAllMP, evalPrepP, by decide⟩

/-- C10: over a table in which every attribution date parsed — so the
unique label list has no null entry, its to-datetime sort keys are
total, and the sort is genuinely chronological — when both endpoints are
present but the start month is chronologically strictly after the end
month, the selected slice is empty and the query boundary returns three
empty tables without raising any error.  When some date failed to parse
the guarantee is lost: see the counterexample above. -/
theorem c10_reversed_range (attr : List AttrRow) (ords : List OrderRow)
    (pricing : List (YM × Nat)) (s e : YM) (t : AggType)
    (_hpar : ∀ r ∈ attr, r.yearMonth ≠ none)
    (hs : s ∈ allMonthsOf attr) (he : e ∈ allMonthsOf attr)
    (hlt : ymLT e s = true) :
    prepareData attr ords pricing s e t = .ok ([], [], []) := by
  have hne : attr.isEmpty = false := by
    cases attr with
    | nil => simp [allMonthsOf] at hs
    | cons a t2 => rfl
  rcases listIndex_mem_ok hs with ⟨i, hi⟩
  rcases listIndex_mem_ok he with ⟨j, hj⟩
  rcases List.get?_eq_some.mp (listIndex_ok_get hi) with ⟨hilen, hgi⟩
  rcases List.get?_eq_some.mp (listIndex_ok_get hj) with ⟨hjlen, hgj⟩
  have hsorted : List.Pairwise ymRel (allMonthsOf attr) :=
    sorted_insertionSort_of ymRel ymRel_total ymRel_trans _
  have hji : j < i := by
    by_contra hcon
    push_neg at hcon
    rcases Nat.eq_or_lt_of_le hcon with heq | hlt2
    · subst heq
      have hse : s = e := by
        rw [← hgi, ← hgj]
      rw [hse] at hlt
      rw [ymLT_iff] at hlt
      omega
    · have hrel := List.pairwise_iff_get.mp hsorted ⟨i, hilen⟩ ⟨j, hjlen⟩
        (Fin.mk_lt_mk.mpr hlt2)
      rw [hgi, hgj] at hrel
      exact ymRel_not_of_ymLT e s hlt hrel
  unfold prepareData
  rw [hne]
  simp only [Bool.false_eq_true, if_false, selectedMonths, hi, hj]
  have hz : j + 1 - i = 0 := by omega
  rw [hz, List.take_zero]
  exact prepareCore_nil attr ords pricing s e t

/-- Witness for C10: the two-month fixture has every date parsed, and
querying it with the months reversed yields three empty tables. -/
theorem c10_reversed_range_witness :
    prepareData attrW ordersW pricingW (2024, 6) (2024, 5) .source = .ok ([], [], []) :=
  c10_reversed_range attrW ordersW pricingW (2024, 6) (2024, 5) .source
    (by decide) (by decide) (by decide) (by decide)
